import Mathlib

/-!
Verification development for the InkFrame device firmware (src/src/main.cpp).

The development shallowly embeds the device/server synchronization protocol
and the content-acquisition state machine of the firmware:

* the global device state (`currentMode`, `currentImageIndex`, `totalImages`,
  `serverRefreshVersion`, `nextPollSeconds`, `lastPollTime`, `imageBuffer`,
  `hasImage`) becomes the structure `DeviceState`;
* `fetchBitmap` becomes a pure function over an `HttpResponse`, a record of
  the observable behaviour of one HTTP exchange (status code, reported
  Content-Length, the `X-Image-Total` header, and the sequence of stream
  observations seen by the read loop);
* `toggleMode`, `advanceImage` and `pollServerForInstructions` become state
  transformers parameterised by an environment `env : String → Int → HttpResponse`
  mapping a content descriptor (mode string and index) to the HTTP response the
  server produces for it, and they additionally emit a trace of `Event`s
  (server notifications, content fetches, draw operations);
* the scheduling check of `loop` becomes `loopStep`, with `millis()`
  arithmetic on 32-bit unsigned values made explicit.
-/

/-- Display width in pixels (`DISPLAY_WIDTH` in the firmware). -/
def DISPLAY_WIDTH : Nat := 200

/-- Display height in pixels (`DISPLAY_HEIGHT` in the firmware). -/
def DISPLAY_HEIGHT : Nat := 200

/-- The exact byte length of one packed monochrome frame,
`DISPLAY_WIDTH * DISPLAY_HEIGHT / 8` as computed by `fetchBitmap`. -/
def expectedSize : Nat := DISPLAY_WIDTH * DISPLAY_HEIGHT / 8

theorem expectedSize_eq : expectedSize = 5000 := by decide

/-- One observation of the body stream made by an iteration of the read loop
in `fetchBitmap`: whether `http.connected()` holds, the value of
`millis() - startTime` at the loop test, and the bytes `stream` reports
available at this iteration. -/
structure StreamEvent where
  connected : Bool
  time : Nat
  data : List Nat
deriving DecidableEq

/-- Overwrite `bytes` into `buf` starting at offset `off`, modelling
`stream->read(imageBuffer + bytesRead, toRead)` writing into the global
array. -/
def writeAt (buf : List Nat) (off : Nat) (bytes : List Nat) : List Nat :=
  buf.take off ++ bytes ++ buf.drop (off + bytes.length)

/-- The body-streaming loop of `fetchBitmap`:
`while (http.connected() && bytesRead < expectedSize && (millis() - startTime < 10000))`
reading `toRead = min(stream->available(), expectedSize - bytesRead)` bytes
into the image buffer at offset `bytesRead`.  Returns the final `bytesRead`
together with the final buffer contents. -/
def streamLoop : List StreamEvent → Nat → List Nat → Nat × List Nat
  | [], bytesRead, buf => (bytesRead, buf)
  | e :: rest, bytesRead, buf =>
    if e.connected ∧ bytesRead < expectedSize ∧ e.time < 10000 then
      if 0 < e.data.length then
        let toRead := min e.data.length (expectedSize - bytesRead)
        streamLoop rest (bytesRead + toRead) (writeAt buf bytesRead (e.data.take toRead))
      else
        streamLoop rest bytesRead buf
    else
      (bytesRead, buf)

/-- The observable behaviour of one bitmap HTTP exchange: the status code
returned by `http.GET()`, the value of `http.getSize()` (`-1` meaning
chunked/unknown), the integer value of the `X-Image-Total` header when
present, and the stream observations of the read loop. -/
structure HttpResponse where
  httpCode : Int
  len : Int
  xImageTotal : Option Int
  events : List StreamEvent

/-- Display modes of the firmware (`enum DisplayMode`). -/
inductive Mode where
  | dashboard
  | image
  | setup
deriving DecidableEq

/-- The global mutable state of the firmware that the synchronization and
content-acquisition logic reads and writes. -/
structure DeviceState where
  currentMode : Mode
  currentImageIndex : Int
  totalImages : Int
  serverRefreshVersion : Int
  nextPollSeconds : Int
  lastPollTime : Nat
  imageBuffer : List Nat
  hasImage : Bool
deriving DecidableEq

/-- The header-merging step of `fetchBitmap`: when the response carries an
`X-Image-Total` header, `totalImages` is overwritten with its value. -/
def applyHeaderTotal (r : HttpResponse) (s : DeviceState) : DeviceState :=
  match r.xImageTotal with
  | some t => { s with totalImages := t }
  | none => s

/-- `fetchBitmap` from the firmware, as a transformer of the global state.
On a 200 status it merges the `X-Image-Total` header, checks the reported
size, streams the body into `imageBuffer`, and succeeds only when exactly
`expectedSize` bytes were read; on a 404 it zeroes `totalImages`; on any
other status it fails with no state change. -/
def fetchBitmap (r : HttpResponse) (s : DeviceState) : Bool × DeviceState :=
  if r.httpCode = 200 then
    let s1 := applyHeaderTotal r s
    if r.len = (expectedSize : Int) ∨ r.len = -1 then
      let res := streamLoop r.events 0 s.imageBuffer
      if res.1 = expectedSize then
        (true, { s1 with imageBuffer := res.2, hasImage := true })
      else
        (false, { s1 with imageBuffer := res.2 })
    else
      (false, s1)
  else if r.httpCode = 404 then
    (false, { s with totalImages := 0 })
  else
    (false, s)

/-- The number of body bytes the read loop accumulates, independent of the
buffer it writes into. -/
theorem streamLoop_fst (evs : List StreamEvent) :
    ∀ n buf buf2, (streamLoop evs n buf).1 = (streamLoop evs n buf2).1 := by
  induction evs with
  | nil => intro n buf buf2; rfl
  | cons e rest ih =>
    intro n buf buf2
    simp only [streamLoop]
    split
    · split
      · exact ih _ _ _
      · exact ih _ _ _
    · rfl

/-- Whether a bitmap exchange satisfies the success condition of
`fetchBitmap`: status 200, acceptable reported size, and the read loop
accumulating exactly `expectedSize` bytes. -/
def fetchOk (r : HttpResponse) : Bool :=
  if r.httpCode = 200 then
    if r.len = (expectedSize : Int) ∨ r.len = -1 then
      decide ((streamLoop r.events 0 []).1 = expectedSize)
    else false
  else false

theorem fetchBitmap_fst (r : HttpResponse) (s : DeviceState) :
    (fetchBitmap r s).1 = fetchOk r := by
  have hb := streamLoop_fst r.events 0 [] s.imageBuffer
  rcases h : r.xImageTotal with _ | t <;>
    simp only [fetchBitmap, fetchOk, applyHeaderTotal, h] <;>
    split_ifs <;> simp_all

theorem fetchBitmap_currentMode (r : HttpResponse) (s : DeviceState) :
    (fetchBitmap r s).2.currentMode = s.currentMode := by
  rcases h : r.xImageTotal with _ | t <;>
    simp only [fetchBitmap, applyHeaderTotal, h] <;>
    split_ifs <;> rfl

theorem fetchBitmap_currentImageIndex (r : HttpResponse) (s : DeviceState) :
    (fetchBitmap r s).2.currentImageIndex = s.currentImageIndex := by
  rcases h : r.xImageTotal with _ | t <;>
    simp only [fetchBitmap, applyHeaderTotal, h] <;>
    split_ifs <;> rfl

theorem fetchBitmap_nextPollSeconds (r : HttpResponse) (s : DeviceState) :
    (fetchBitmap r s).2.nextPollSeconds = s.nextPollSeconds := by
  rcases h : r.xImageTotal with _ | t <;>
    simp only [fetchBitmap, applyHeaderTotal, h] <;>
    split_ifs <;> rfl

theorem fetchBitmap_lastPollTime (r : HttpResponse) (s : DeviceState) :
    (fetchBitmap r s).2.lastPollTime = s.lastPollTime := by
  rcases h : r.xImageTotal with _ | t <;>
    simp only [fetchBitmap, applyHeaderTotal, h] <;>
    split_ifs <;> rfl

/-- A bitmap response that neither carries an `X-Image-Total` header nor has
status 404 leaves `totalImages` untouched. -/
theorem fetchBitmap_totalImages_plain (r : HttpResponse) (s : DeviceState)
    (h1 : r.xImageTotal = none) (h2 : r.httpCode ≠ 404) :
    (fetchBitmap r s).2.totalImages = s.totalImages := by
  simp only [fetchBitmap, applyHeaderTotal, h1]
  split_ifs <;> simp_all

/-- Observable protocol actions performed by the state machine: a
`set-mode` notification (`notifyServerModeChange`), the `next-image`
notification of `advanceImage`, a bitmap content fetch for a descriptor,
and the two draw operations. -/
inductive Event where
  | notifyMode (mode : String)
  | notifyNext
  | fetch (mode : String) (index : Int)
  | drawImage
  | drawDashboard
deriving DecidableEq

/-- `fetchImage` from the firmware: a bitmap fetch with mode string
`"photo"` at the given index, under environment `env`. -/
def fetchImage (env : String → Int → HttpResponse) (index : Int)
    (s : DeviceState) : Bool × DeviceState :=
  fetchBitmap (env "photo" index) s

/-- `fetchDashboard` from the firmware: a bitmap fetch with mode string
`"dashboard"` at index 0, under environment `env`. -/
def fetchDashboard (env : String → Int → HttpResponse)
    (s : DeviceState) : Bool × DeviceState :=
  fetchBitmap (env "dashboard" 0) s

/-- `toggleMode` from the firmware.  From dashboard mode it switches to
image mode, notifies the server of mode `"photo"`, and fetches the photo at
`currentImageIndex`; on fetch failure it falls back to dashboard mode,
notifies mode `"dashboard"`, and attempts a dashboard fetch, drawing the
local dashboard when that also fails.  From any other mode it switches to
dashboard mode, notifies `"dashboard"`, and fetches the dashboard. -/
def toggleMode (env : String → Int → HttpResponse)
    (s : DeviceState) : DeviceState × List Event :=
  if s.currentMode = Mode.dashboard then
    let s1 := { s with currentMode := Mode.image }
    let f1 := fetchImage env s.currentImageIndex s1
    if f1.1 then
      (f1.2, [Event.notifyMode "photo", Event.fetch "photo" s.currentImageIndex,
              Event.drawImage])
    else
      let s2 := { f1.2 with currentMode := Mode.dashboard }
      let f2 := fetchDashboard env s2
      if f2.1 then
        (f2.2, [Event.notifyMode "photo", Event.fetch "photo" s.currentImageIndex,
                Event.notifyMode "dashboard", Event.fetch "dashboard" 0,
                Event.drawImage])
      else
        (f2.2, [Event.notifyMode "photo", Event.fetch "photo" s.currentImageIndex,
                Event.notifyMode "dashboard", Event.fetch "dashboard" 0,
                Event.drawDashboard])
  else
    let s1 := { s with currentMode := Mode.dashboard }
    let f1 := fetchDashboard env s1
    if f1.1 then
      (f1.2, [Event.notifyMode "dashboard", Event.fetch "dashboard" 0,
              Event.drawImage])
    else
      (f1.2, [Event.notifyMode "dashboard", Event.fetch "dashboard" 0,
              Event.drawDashboard])

/-- `advanceImage` from the firmware: a no-op when `totalImages <= 1`,
otherwise advances `currentImageIndex` by one modulo `totalImages` (C
truncated remainder), notifies the server over `next-image`, and fetches and
draws the new image. -/
def advanceImage (env : String → Int → HttpResponse)
    (s : DeviceState) : DeviceState × List Event :=
  if s.totalImages ≤ 1 then (s, [])
  else
    let newIndex := (s.currentImageIndex + 1).tmod s.totalImages
    let s1 := { s with currentImageIndex := newIndex }
    let f := fetchImage env newIndex s1
    if f.1 then
      (f.2, [Event.notifyNext, Event.fetch "photo" newIndex, Event.drawImage])
    else
      (f.2, [Event.notifyNext, Event.fetch "photo" newIndex])

/-- The decoded poll payload, with the parse defaults of the firmware
already applied (`r | false`, `m | "dashboard"`, `v | 0`, `n | 30`,
`i | 0`, `t | 0`). -/
structure PollResponse where
  r : Bool
  m : String
  v : Int
  n : Int
  i : Int
  t : Int
deriving DecidableEq

/-- The observable behaviour of one poll HTTP exchange: the status code and,
for a 200 response, the result of deserializing the body (`none` when the
JSON parse fails). -/
structure PollHttp where
  httpCode : Int
  payload : Option PollResponse

/-- `pollServerForInstructions` from the firmware.  On a parsed 200
response it unconditionally adopts `v`, `n`, `t` and `i`; when the server
requests a refresh or the mode or index changed it adopts the new mode and
acquires content for it, falling back from image mode to dashboard mode when
`totalImages = 0` or the photo fetch fails.  Returns the boolean result of
the function together with the new state and the emitted events. -/
def pollServerForInstructions (ph : PollHttp)
    (env : String → Int → HttpResponse)
    (s : DeviceState) : Bool × DeviceState × List Event :=
  if ph.httpCode = 200 then
    match ph.payload with
    | some r =>
      let newMode := if r.m = "photo" then Mode.image else Mode.dashboard
      let s1 := { s with serverRefreshVersion := r.v, nextPollSeconds := r.n,
                         totalImages := r.t, currentImageIndex := r.i }
      if r.r ∨ newMode ≠ s.currentMode ∨ r.i ≠ s.currentImageIndex then
        let s2 := { s1 with currentMode := newMode }
        if newMode = Mode.dashboard then
          let f := fetchDashboard env s2
          if f.1 then
            (true, f.2, [Event.fetch "dashboard" 0, Event.drawImage])
          else
            (true, f.2, [Event.fetch "dashboard" 0, Event.drawDashboard])
        else
          if 0 < s2.totalImages then
            let f := fetchImage env s2.currentImageIndex s2
            if f.1 then
              (true, f.2, [Event.fetch "photo" s2.currentImageIndex,
                           Event.drawImage])
            else
              let s3 := { f.2 with currentMode := Mode.dashboard }
              let g := fetchDashboard env s3
              if g.1 then
                (true, g.2, [Event.fetch "photo" s2.currentImageIndex,
                             Event.fetch "dashboard" 0, Event.drawImage])
              else
                (true, g.2, [Event.fetch "photo" s2.currentImageIndex,
                             Event.fetch "dashboard" 0, Event.drawDashboard])
          else
            let s3 := { s2 with currentMode := Mode.dashboard }
            let g := fetchDashboard env s3
            if g.1 then
              (true, g.2, [Event.fetch "dashboard" 0, Event.drawImage])
            else
              (true, g.2, [Event.fetch "dashboard" 0, Event.drawDashboard])
      else
        (false, s1, [])
    | none => (false, s, [])
  else
    (false, s, [])

/-- 32-bit unsigned subtraction `a - b` as performed on `unsigned long`
values by `millis() - lastPollTime`. -/
def usub32 (a b : Nat) : Nat :=
  (a + (2 ^ 32 - b % 2 ^ 32)) % 2 ^ 32

/-- `(unsigned long)nextPollSeconds * 1000UL` from `loop()`: the `int` value
is converted to a 32-bit unsigned value and multiplied by 1000 modulo
`2 ^ 32`. -/
def pollIntervalMs (nextPollSeconds : Int) : Nat :=
  ((nextPollSeconds % (2 ^ 32)).toNat * 1000) % 2 ^ 32

/-- The poll due test of `loop()`:
`millis() - lastPollTime > pollIntervalMs`. -/
def pollDue (now lastPollTime : Nat) (nextPollSeconds : Int) : Bool :=
  decide (usub32 now lastPollTime > pollIntervalMs nextPollSeconds)

/-- One iteration of `loop()` as observed by the scheduler: whether a
debounced button edge was detected at this iteration, whether WiFi is
connected, the value of `millis()` at the poll due test, and the value of
`millis()` after the poll returns. -/
structure LoopInput where
  buttonEdge : Bool
  wifiConnected : Bool
  now : Nat
  nowAfterPoll : Nat

/-- One iteration of `loop()`: on a button edge it toggles the mode and
resets `lastPollTime` to 0; when WiFi is down it does nothing further; then
it polls the server exactly when the due test passes, stamping
`lastPollTime` with `millis()` afterwards.  Returns the new state, whether a
poll was issued, and the emitted events. -/
def loopStep (inp : LoopInput) (ph : PollHttp)
    (env : String → Int → HttpResponse)
    (s : DeviceState) : DeviceState × Bool × List Event :=
  let sb :=
    if inp.buttonEdge then
      let t := toggleMode env s
      ({ t.1 with lastPollTime := 0 }, t.2)
    else (s, [])
  if inp.wifiConnected = false then (sb.1, false, sb.2)
  else if pollDue inp.now sb.1.lastPollTime sb.1.nextPollSeconds then
    let p := pollServerForInstructions ph env sb.1
    ({ p.2.1 with lastPollTime := inp.nowAfterPoll }, true, sb.2 ++ p.2.2)
  else
    (sb.1, false, sb.2)

/-- The DeviceState invariant stated by the specification: image mode with
no content is disallowed, the index is pinned to 0 when there is no content,
and the index is in range when there is. -/
def StateInv (s : DeviceState) : Prop :=
  (s.totalImages = 0 → s.currentMode = Mode.dashboard ∧ s.currentImageIndex = 0) ∧
  (0 < s.totalImages → s.currentImageIndex < s.totalImages)

instance (s : DeviceState) : Decidable (StateInv s) := by
  unfold StateInv; infer_instance

/-- An environment whose bitmap responses never override `totalImages`:
no `X-Image-Total` header and no 404 status. -/
def PlainEnv (env : String → Int → HttpResponse) : Prop :=
  ∀ m i, (env m i).xImageTotal = none ∧ (env m i).httpCode ≠ 404

/-- Consistency of the local image count with the server: when the device
believes there is no content, a photo fetch at the current index does not
succeed. -/
def NoPhantomPhotos (env : String → Int → HttpResponse) (s : DeviceState) : Prop :=
  s.totalImages = 0 → fetchOk (env "photo" s.currentImageIndex) = false

/-- Wire validity of a decoded poll payload, as the specification requires
the consumer to enforce before merging: a nonnegative total, index 0 and
dashboard mode when the total is 0, and an in-range index otherwise. -/
def WellFormedPoll (r : PollResponse) : Prop :=
  0 ≤ r.t ∧ (r.t = 0 → r.i = 0 ∧ r.m ≠ "photo") ∧ (0 < r.t → r.i < r.t)

/-- A bitmap exchange failing with a server error: status 500, no body. -/
def resp500 : HttpResponse := ⟨500, -1, none, []⟩

/-- A bitmap exchange answered 404: no content available. -/
def resp404 : HttpResponse := ⟨404, -1, none, []⟩

/-- A bitmap exchange with a 200 status and unknown length whose stream
delivers a single byte and then disconnects: a short read. -/
def respShortRead : HttpResponse :=
  ⟨200, -1, none, [⟨true, 0, [7]⟩, ⟨false, 1, []⟩]⟩

/-- A fully successful bitmap exchange: status 200, correct length, and a
stream delivering all `expectedSize` bytes at once. -/
def respFull : HttpResponse :=
  ⟨200, (expectedSize : Int), none, [⟨true, 0, List.replicate expectedSize 1⟩]⟩

/-- An environment in which every bitmap request fails with status 500. -/
def env500 : String → Int → HttpResponse := fun _ _ => resp500

/-- An environment in which every bitmap request fully succeeds. -/
def envFull : String → Int → HttpResponse := fun _ _ => respFull

/-- A fresh device state: dashboard mode, no content, default poll
interval, empty buffer. -/
def emptyState : DeviceState :=
  ⟨Mode.dashboard, 0, 0, 0, 30, 0, [], false⟩

/-- A fresh device state with the image buffer allocated at its full
`expectedSize` capacity, all bytes 0. -/
def bufState : DeviceState :=
  ⟨Mode.dashboard, 0, 0, 0, 30, 0, List.replicate expectedSize 0, false⟩

theorem fetchOk_resp500 : fetchOk resp500 = false := by decide

theorem streamLoop_full_event (buf : List Nat) :
    (streamLoop [⟨true, 0, List.replicate expectedSize 1⟩] 0 buf).1 = expectedSize := by
  have h : (0:Nat) < expectedSize := by rw [expectedSize_eq]; norm_num
  have h10 : (0:Nat) < 10000 := by norm_num
  simp [streamLoop, List.length_replicate, h, h10, Nat.sub_zero, Nat.min_self]

theorem fetchOk_respFull : fetchOk respFull = true := by
  have h := streamLoop_full_event []
  simp [fetchOk, respFull, h]

theorem streamLoop_short (buf : List Nat) :
    streamLoop [⟨true, 0, [7]⟩, ⟨false, 1, []⟩] 0 buf = (1, writeAt buf 0 [7]) := by
  have h : (0:Nat) < expectedSize := by rw [expectedSize_eq]; norm_num
  have h1 : (1:Nat) ≤ expectedSize := by rw [expectedSize_eq]; norm_num
  have h10 : (0:Nat) < 10000 := by norm_num
  simp [streamLoop, h, h1, h10, Nat.sub_zero, Nat.min_eq_left]

theorem fetch_short_eq :
    fetchBitmap respShortRead bufState =
      (false, { bufState with imageBuffer := writeAt bufState.imageBuffer 0 [7] }) := by
  have hne : (1:Nat) ≠ expectedSize := by rw [expectedSize_eq]; norm_num
  simp [fetchBitmap, applyHeaderTotal, respShortRead, streamLoop_short, hne]

/-- C1 (counterexample).  A bitmap fetch over a stream that delivers one
byte and then disconnects is a failed fetch (short read), yet the contents
of the image buffer after the call differ from the contents before it: the
streaming loop wrote the received byte into the buffer in place. -/
theorem fetchBitmap_short_read_mutates_buffer :
    (fetchBitmap respShortRead bufState).1 = false ∧
    (fetchBitmap respShortRead bufState).2.imageBuffer ≠ bufState.imageBuffer := by
  rw [fetch_short_eq]
  refine ⟨rfl, ?_⟩
  intro h
  have h0 := congrArg (fun l => l[0]?) h
  have hlt : (0:Nat) < expectedSize := by rw [expectedSize_eq]; norm_num
  simp [writeAt, bufState, List.singleton_append,
    List.getElem?_replicate_of_lt hlt] at h0

/-- C1 (amended).  A bitmap fetch that fails before the body is streamed,
with a non-200 status or a reported Content-Length that is neither the
expected size nor unknown, returns false and leaves the image buffer
unchanged.  (A failure during streaming, a short read or deadline timeout,
may instead leave the buffer partially overwritten, as the counterexample
shows.) -/
theorem fetchBitmap_prestream_failure_preserves_buffer
    (r : HttpResponse) (s : DeviceState)
    (h : r.httpCode ≠ 200 ∨ (r.len ≠ (expectedSize : Int) ∧ r.len ≠ -1)) :
    (fetchBitmap r s).1 = false ∧
    (fetchBitmap r s).2.imageBuffer = s.imageBuffer := by
  rcases h with h | h
  · simp only [fetchBitmap, if_neg h]
    split_ifs <;> exact ⟨rfl, rfl⟩
  · by_cases hc : r.httpCode = 200
    · simp only [fetchBitmap, if_pos hc]
      rw [if_neg]
      · rcases hh : r.xImageTotal with _ | t <;> simp [applyHeaderTotal, hh]
      · rintro (h1 | h1)
        · exact h.1 h1
        · exact h.2 h1
    · simp only [fetchBitmap, if_neg hc]
      split_ifs <;> exact ⟨rfl, rfl⟩

theorem fetchBitmap_prestream_failure_preserves_buffer_witness :
    (fetchBitmap resp500 emptyState).1 = false ∧
    (fetchBitmap resp500 emptyState).2.imageBuffer = emptyState.imageBuffer :=
  fetchBitmap_prestream_failure_preserves_buffer resp500 emptyState
    (Or.inl (by decide))

/-- The number of body bytes `fetchBitmap` reads for a given exchange: zero
unless the status is 200 and the reported size is acceptable, in which case
it is the count accumulated by the read loop within the deadline. -/
def bytesReadOf (r : HttpResponse) : Nat :=
  if r.httpCode = 200 ∧ (r.len = (expectedSize : Int) ∨ r.len = -1) then
    (streamLoop r.events 0 []).1
  else 0

/-- C2.  `fetchBitmap` returns true exactly when the HTTP status is 200 and
exactly `expectedSize` (5000) body bytes are read by the deadline-limited
read loop; a short read, timeout, size mismatch or non-200 status all
return false. -/
theorem fetchBitmap_true_iff_200_and_full_read (r : HttpResponse) (s : DeviceState) :
    (fetchBitmap r s).1 = true ↔ r.httpCode = 200 ∧ bytesReadOf r = expectedSize := by
  have h0 : (0:Nat) ≠ expectedSize := by rw [expectedSize_eq]; norm_num
  rw [fetchBitmap_fst]
  unfold fetchOk bytesReadOf
  split_ifs <;> simp_all

/-- C3.  A parsed poll response with `shouldRefresh` false, an unchanged
mode and an unchanged index causes no content fetch, yet
`serverRefreshVersion`, `nextPollSeconds` and `totalImages` are still
updated to the values of the response, and mode and index are unchanged. -/
theorem poll_noop_still_adopts_server_fields (ph : PollHttp)
    (env : String → Int → HttpResponse) (s : DeviceState) (r : PollResponse)
    (hcode : ph.httpCode = 200) (hpay : ph.payload = some r)
    (hr : r.r = false)
    (hm : (if r.m = "photo" then Mode.image else Mode.dashboard) = s.currentMode)
    (hi : r.i = s.currentImageIndex) :
    (pollServerForInstructions ph env s).2.2 = [] ∧
    (pollServerForInstructions ph env s).2.1.serverRefreshVersion = r.v ∧
    (pollServerForInstructions ph env s).2.1.nextPollSeconds = r.n ∧
    (pollServerForInstructions ph env s).2.1.totalImages = r.t ∧
    (pollServerForInstructions ph env s).2.1.currentMode = s.currentMode ∧
    (pollServerForInstructions ph env s).2.1.currentImageIndex = s.currentImageIndex := by
  simp [pollServerForInstructions, hcode, hpay, hr, hm, hi]

/-- A poll exchange used as witness input: 200 status, no refresh
requested, dashboard mode, version 5, next poll 60 seconds, index 0,
total 0. -/
def pollNoop : PollHttp := ⟨200, some ⟨false, "dashboard", 5, 60, 0, 0⟩⟩

theorem poll_noop_still_adopts_server_fields_witness :
    (pollServerForInstructions pollNoop env500 emptyState).2.2 = [] ∧
    (pollServerForInstructions pollNoop env500 emptyState).2.1.serverRefreshVersion = 5 ∧
    (pollServerForInstructions pollNoop env500 emptyState).2.1.nextPollSeconds = 60 ∧
    (pollServerForInstructions pollNoop env500 emptyState).2.1.totalImages = 0 ∧
    (pollServerForInstructions pollNoop env500 emptyState).2.1.currentMode = emptyState.currentMode ∧
    (pollServerForInstructions pollNoop env500 emptyState).2.1.currentImageIndex = emptyState.currentImageIndex :=
  poll_noop_still_adopts_server_fields pollNoop env500 emptyState
    ⟨false, "dashboard", 5, 60, 0, 0⟩ rfl rfl rfl (by decide) rfl

/-- C6.  When the poll body fails to deserialize, no state is merged: the
function returns false, the state is exactly the old state (in particular
`serverRefreshVersion`, `nextPollSeconds`, `totalImages`,
`currentImageIndex` and `currentMode` are unchanged), and no content fetch
occurs. -/
theorem poll_parse_error_no_merge (ph : PollHttp)
    (env : String → Int → HttpResponse) (s : DeviceState)
    (hcode : ph.httpCode = 200) (hpay : ph.payload = none) :
    pollServerForInstructions ph env s = (false, s, []) := by
  simp [pollServerForInstructions, hcode, hpay]

/-- A poll exchange whose body fails to parse. -/
def pollBadPayload : PollHttp := ⟨200, none⟩

theorem poll_parse_error_no_merge_witness :
    pollServerForInstructions pollBadPayload env500 emptyState =
      (false, emptyState, []) :=
  poll_parse_error_no_merge pollBadPayload env500 emptyState rfl rfl

/-- C7.  A bitmap fetch answered with status 404 fails and zeroes
`totalImages`, and no other field of the state changes; the treatment is
distinct among error statuses: any other non-200 status fails with the
state fully unchanged, so the 404 branch is the only failure that touches
`totalImages`. -/
theorem fetchBitmap_404_zeroes_totalImages (r r2 : HttpResponse)
    (s : DeviceState)
    (h : r.httpCode = 404) (h2 : r2.httpCode ≠ 404) (h3 : r2.httpCode ≠ 200) :
    fetchBitmap r s = (false, { s with totalImages := 0 }) ∧
    fetchBitmap r2 s = (false, s) := by
  have hne : r.httpCode ≠ 200 := by rw [h]; norm_num
  constructor
  · simp [fetchBitmap, hne, h]
  · simp [fetchBitmap, h2, h3]

theorem fetchBitmap_404_zeroes_totalImages_witness :
    fetchBitmap resp404 emptyState = (false, { emptyState with totalImages := 0 }) ∧
    fetchBitmap resp500 emptyState = (false, emptyState) :=
  fetchBitmap_404_zeroes_totalImages resp404 resp500 emptyState rfl
    (by norm_num [resp500]) (by norm_num [resp500])

theorem toggleMode_currentImageIndex (env : String → Int → HttpResponse)
    (s : DeviceState) :
    (toggleMode env s).1.currentImageIndex = s.currentImageIndex := by
  simp only [toggleMode, fetchImage, fetchDashboard]
  split_ifs <;> simp [fetchBitmap_currentImageIndex]

theorem toggleMode_nextPollSeconds (env : String → Int → HttpResponse)
    (s : DeviceState) :
    (toggleMode env s).1.nextPollSeconds = s.nextPollSeconds := by
  simp only [toggleMode, fetchImage, fetchDashboard]
  split_ifs <;> simp [fetchBitmap_nextPollSeconds]

theorem toggleMode_totalImages_plain (env : String → Int → HttpResponse)
    (s : DeviceState) (hEnv : PlainEnv env) :
    (toggleMode env s).1.totalImages = s.totalImages := by
  simp only [toggleMode, fetchImage, fetchDashboard]
  split_ifs <;>
    simp [fetchBitmap_totalImages_plain _ _ (hEnv _ _).1 (hEnv _ _).2]

/-- The mode reached by `toggleMode` depends only on the current mode and,
from dashboard mode, on whether the photo fetch at the current index
succeeds. -/
theorem toggleMode_currentMode (env : String → Int → HttpResponse)
    (s : DeviceState) :
    (toggleMode env s).1.currentMode =
      (if s.currentMode = Mode.dashboard then
        (if fetchOk (env "photo" s.currentImageIndex) = true then Mode.image
         else Mode.dashboard)
       else Mode.dashboard) := by
  simp only [toggleMode, fetchImage, fetchDashboard]
  split_ifs <;> simp_all [fetchBitmap_fst, fetchBitmap_currentMode]

/-- The events emitted by `toggleMode` depend only on the current mode, the
current index, and the success of the fetches the environment answers. -/
theorem toggleMode_events (env : String → Int → HttpResponse) (s : DeviceState) :
    (toggleMode env s).2 =
      (if s.currentMode = Mode.dashboard then
        (if fetchOk (env "photo" s.currentImageIndex) = true then
          [Event.notifyMode "photo", Event.fetch "photo" s.currentImageIndex,
           Event.drawImage]
         else if fetchOk (env "dashboard" 0) = true then
          [Event.notifyMode "photo", Event.fetch "photo" s.currentImageIndex,
           Event.notifyMode "dashboard", Event.fetch "dashboard" 0,
           Event.drawImage]
         else
          [Event.notifyMode "photo", Event.fetch "photo" s.currentImageIndex,
           Event.notifyMode "dashboard", Event.fetch "dashboard" 0,
           Event.drawDashboard])
       else
        (if fetchOk (env "dashboard" 0) = true then
          [Event.notifyMode "dashboard", Event.fetch "dashboard" 0,
           Event.drawImage]
         else
          [Event.notifyMode "dashboard", Event.fetch "dashboard" 0,
           Event.drawDashboard])) := by
  simp only [toggleMode, fetchImage, fetchDashboard]
  split_ifs <;> simp_all [fetchBitmap_fst]

/-- C5 (counterexample).  `toggleMode` never consults `totalImages`: from
dashboard mode with `totalImages = 0`, if the environment nevertheless
answers the photo fetch successfully, the device ends in image mode and no
fallback to dashboard happens and no `set-mode dashboard` notification is
sent, contradicting the claim that a toggle while `totalImages = 0` always
falls back. -/
theorem toggle_totalImages_zero_not_sufficient :
    emptyState.totalImages = 0 ∧
    emptyState.currentMode = Mode.dashboard ∧
    (toggleMode envFull emptyState).1.currentMode = Mode.image ∧
    Event.notifyMode "dashboard" ∉ (toggleMode envFull emptyState).2 := by
  refine ⟨rfl, rfl, ?_, ?_⟩
  · rw [toggleMode_currentMode]
    simp [envFull, fetchOk_respFull, emptyState]
  · rw [toggleMode_events]
    simp [envFull, fetchOk_respFull, emptyState]

/-- C5 (amended).  A manual toggle from dashboard mode whose photo fetch
fails (in particular when the server has no content) falls back: the mode
ends as dashboard, a dashboard content fetch is attempted, and the server
is notified with mode "dashboard".  The firmware does not consult
`totalImages` here; the fallback is triggered by the fetch failure alone. -/
theorem toggle_photo_fetch_failure_falls_back (env : String → Int → HttpResponse)
    (s : DeviceState)
    (hm : s.currentMode = Mode.dashboard)
    (hf : fetchOk (env "photo" s.currentImageIndex) = false) :
    (toggleMode env s).1.currentMode = Mode.dashboard ∧
    Event.fetch "dashboard" 0 ∈ (toggleMode env s).2 ∧
    Event.notifyMode "dashboard" ∈ (toggleMode env s).2 := by
  rw [toggleMode_currentMode, toggleMode_events]
  refine ⟨?_, ?_, ?_⟩ <;> simp [hm, hf] <;> split_ifs <;> simp

theorem toggle_photo_fetch_failure_falls_back_witness :
    (toggleMode env500 emptyState).1.currentMode = Mode.dashboard ∧
    Event.fetch "dashboard" 0 ∈ (toggleMode env500 emptyState).2 ∧
    Event.notifyMode "dashboard" ∈ (toggleMode env500 emptyState).2 :=
  toggle_photo_fetch_failure_falls_back env500 emptyState rfl (by decide)

/-- A state in equilibrium with the server: the mode is an operational one
(not the architectural setup mode), and if the device is displaying images
then the photo at the current index is fetchable. -/
def Stable (env : String → Int → HttpResponse) (s : DeviceState) : Prop :=
  s.currentMode ≠ Mode.setup ∧
  (s.currentMode = Mode.image → fetchOk (env "photo" s.currentImageIndex) = true)

instance (env : String → Int → HttpResponse) (s : DeviceState) :
    Decidable (Stable env s) := by
  unfold Stable; infer_instance

/-- C9.  From a stable state, with no intervening poll and no server-side
change (the same environment answers every fetch), two manual toggles
return the mode to its original value, and repeating the double toggle
performs exactly the same content-acquisition sequence: the third toggle
emits the events of the first and the fourth emits the events of the
second. -/
theorem toggle_twice_roundtrip (env : String → Int → HttpResponse)
    (s : DeviceState) (hs : Stable env s) :
    (toggleMode env (toggleMode env s).1).1.currentMode = s.currentMode ∧
    (toggleMode env (toggleMode env (toggleMode env s).1).1).2 =
      (toggleMode env s).2 ∧
    (toggleMode env (toggleMode env (toggleMode env (toggleMode env s).1).1).1).2 =
      (toggleMode env (toggleMode env s).1).2 := by
  obtain ⟨hsetup, himage⟩ := hs
  have hidx1 : (toggleMode env s).1.currentImageIndex = s.currentImageIndex :=
    toggleMode_currentImageIndex env s
  have hidx2 : (toggleMode env (toggleMode env s).1).1.currentImageIndex =
      s.currentImageIndex := by
    rw [toggleMode_currentImageIndex, hidx1]
  have hidx3 :
      (toggleMode env (toggleMode env (toggleMode env s).1).1).1.currentImageIndex =
      s.currentImageIndex := by
    rw [toggleMode_currentImageIndex, hidx2]
  have hA : (toggleMode env (toggleMode env s).1).1.currentMode = s.currentMode := by
    rw [toggleMode_currentMode, toggleMode_currentMode, hidx1]
    rcases hmode : s.currentMode with _ | _ | _
    · by_cases hp : fetchOk (env "photo" s.currentImageIndex) = true <;> simp [hp]
    · simp [himage hmode]
    · exact absurd hmode hsetup
  have hB :
      (toggleMode env (toggleMode env (toggleMode env s).1).1).1.currentMode =
      (toggleMode env s).1.currentMode := by
    rw [toggleMode_currentMode env ((toggleMode env (toggleMode env s).1).1 : DeviceState),
      toggleMode_currentMode env s, hidx2, hA]
  refine ⟨hA, ?_, ?_⟩
  · rw [toggleMode_events env ((toggleMode env (toggleMode env s).1).1 : DeviceState),
      toggleMode_events env s, hidx2, hA]
  · rw [toggleMode_events env
        ((toggleMode env (toggleMode env (toggleMode env s).1).1).1 : DeviceState),
      toggleMode_events env ((toggleMode env s).1 : DeviceState), hidx3, hB, hidx1]

theorem toggle_twice_roundtrip_witness :
    (toggleMode env500 (toggleMode env500 emptyState).1).1.currentMode =
      emptyState.currentMode ∧
    (toggleMode env500 (toggleMode env500 (toggleMode env500 emptyState).1).1).2 =
      (toggleMode env500 emptyState).2 ∧
    (toggleMode env500
        (toggleMode env500
          (toggleMode env500 (toggleMode env500 emptyState).1).1).1).2 =
      (toggleMode env500 (toggleMode env500 emptyState).1).2 :=
  toggle_twice_roundtrip env500 emptyState (by decide)

theorem advance_preserves_StateInv (env : String → Int → HttpResponse)
    (s : DeviceState) (hEnv : PlainEnv env) (hInv : StateInv s) :
    StateInv (advanceImage env s).1 := by
  by_cases h1 : s.totalImages ≤ 1
  · simpa [advanceImage, h1] using hInv
  · push_neg at h1
    simp only [advanceImage, fetchImage, if_neg (not_le.mpr h1)]
    have hplain := fetchBitmap_totalImages_plain
      (env "photo" ((s.currentImageIndex + 1).tmod s.totalImages))
      { s with currentImageIndex := (s.currentImageIndex + 1).tmod s.totalImages }
      (hEnv _ _).1 (hEnv _ _).2
    have hidx := fetchBitmap_currentImageIndex
      (env "photo" ((s.currentImageIndex + 1).tmod s.totalImages))
      { s with currentImageIndex := (s.currentImageIndex + 1).tmod s.totalImages }
    split_ifs <;> dsimp only <;> constructor <;> intro h
    · rw [hplain] at h; dsimp only at h; omega
    · rw [hplain, hidx]
      exact Int.tmod_lt_of_pos _ (by omega)
    · rw [hplain] at h; dsimp only at h; omega
    · rw [hplain, hidx]
      exact Int.tmod_lt_of_pos _ (by omega)

theorem toggle_preserves_StateInv (env : String → Int → HttpResponse)
    (s : DeviceState) (hEnv : PlainEnv env) (hInv : StateInv s)
    (hNP : NoPhantomPhotos env s) :
    StateInv (toggleMode env s).1 := by
  obtain ⟨hInv0, hInvPos⟩ := hInv
  have hidx := toggleMode_currentImageIndex env s
  have htot : (toggleMode env s).1.totalImages = s.totalImages :=
    toggleMode_totalImages_plain env s hEnv
  have hmode := toggleMode_currentMode env s
  constructor
  · intro h0
    rw [htot] at h0
    have hfe := hNP h0
    refine ⟨?_, ?_⟩
    · rw [hmode]
      split_ifs with hd hp
      · rw [hfe] at hp; cases hp
      · rfl
      · rfl
    · rw [hidx]; exact (hInv0 h0).2
  · intro hpos
    rw [htot] at hpos
    rw [hidx, htot]
    exact hInvPos hpos

theorem StateInv_fetch_plain (r1 : HttpResponse) (x : DeviceState)
    (h1 : r1.xImageTotal = none) (h2 : r1.httpCode ≠ 404)
    (hx : StateInv x) : StateInv (fetchBitmap r1 x).2 := by
  obtain ⟨hx0, hxp⟩ := hx
  constructor
  · intro h0
    rw [fetchBitmap_totalImages_plain r1 x h1 h2] at h0
    rw [fetchBitmap_currentMode, fetchBitmap_currentImageIndex]
    exact hx0 h0
  · intro hpos
    rw [fetchBitmap_totalImages_plain r1 x h1 h2] at hpos
    rw [fetchBitmap_currentImageIndex, fetchBitmap_totalImages_plain r1 x h1 h2]
    exact hxp hpos

theorem StateInv_setMode_dashboard (x : DeviceState)
    (hidx : x.totalImages = 0 → x.currentImageIndex = 0)
    (hpos : 0 < x.totalImages → x.currentImageIndex < x.totalImages) :
    StateInv { x with currentMode := Mode.dashboard } := by
  constructor
  · intro h0; exact ⟨rfl, hidx h0⟩
  · exact hpos

theorem poll_preserves_StateInv (ph : PollHttp)
    (env : String → Int → HttpResponse) (s : DeviceState)
    (hEnv : PlainEnv env) (hInv : StateInv s)
    (hWF : ∀ r, ph.payload = some r → WellFormedPoll r) :
    StateInv (pollServerForInstructions ph env s).2.1 := by
  by_cases hc : ph.httpCode = 200
  case neg => simpa [pollServerForInstructions, hc] using hInv
  rcases hp : ph.payload with _ | r
  · simpa [pollServerForInstructions, hc, hp] using hInv
  obtain ⟨ht0, htz, hti⟩ := hWF r hp
  by_cases hm : r.m = "photo"
  · simp only [pollServerForInstructions, hc, hp, hm, fetchImage, fetchDashboard,
      reduceCtorEq, eq_self_iff_true, if_true, if_false, reduceIte]
    split_ifs with h1 h2 h3 h4 h5
    · -- photo mode, total positive, photo fetch succeeded
      apply StateInv_fetch_plain _ _ (hEnv _ _).1 (hEnv _ _).2
      refine ⟨fun h0 => ?_, fun h0 => ?_⟩ <;> dsimp only at h0 ⊢
      · exact absurd h0 (by omega)
      · exact hti h0
    · -- photo fetch failed, dashboard fallback fetch succeeded
      apply StateInv_fetch_plain _ _ (hEnv _ _).1 (hEnv _ _).2
      apply StateInv_setMode_dashboard
      · rw [fetchBitmap_totalImages_plain _ _ (hEnv _ _).1 (hEnv _ _).2,
          fetchBitmap_currentImageIndex]
        dsimp only
        intro h0
        exact absurd h0 (by omega)
      · rw [fetchBitmap_totalImages_plain _ _ (hEnv _ _).1 (hEnv _ _).2,
          fetchBitmap_currentImageIndex]
        dsimp only
        exact hti
    · -- photo fetch failed, dashboard fallback fetch failed
      apply StateInv_fetch_plain _ _ (hEnv _ _).1 (hEnv _ _).2
      apply StateInv_setMode_dashboard
      · rw [fetchBitmap_totalImages_plain _ _ (hEnv _ _).1 (hEnv _ _).2,
          fetchBitmap_currentImageIndex]
        dsimp only
        intro h0
        exact absurd h0 (by omega)
      · rw [fetchBitmap_totalImages_plain _ _ (hEnv _ _).1 (hEnv _ _).2,
          fetchBitmap_currentImageIndex]
        dsimp only
        exact hti
    · -- photo mode requested with no content, dashboard fallback succeeded
      apply StateInv_fetch_plain _ _ (hEnv _ _).1 (hEnv _ _).2
      refine ⟨fun h0 => ?_, fun h0 => ?_⟩ <;> dsimp only at h0 ⊢
      · exact ⟨rfl, (htz h0).1⟩
      · exact hti h0
    · -- photo mode requested with no content, dashboard fallback failed
      apply StateInv_fetch_plain _ _ (hEnv _ _).1 (hEnv _ _).2
      refine ⟨fun h0 => ?_, fun h0 => ?_⟩ <;> dsimp only at h0 ⊢
      · exact ⟨rfl, (htz h0).1⟩
      · exact hti h0
    · -- no refresh needed
      refine ⟨fun h0 => ?_, fun h0 => ?_⟩ <;> dsimp only at h0 ⊢
      · exact absurd hm (htz h0).2
      · exact hti h0
  · simp only [pollServerForInstructions, hc, hp, hm, fetchImage, fetchDashboard,
      reduceCtorEq, eq_self_iff_true, if_true, if_false, reduceIte]
    split_ifs with g1 g2
    · -- dashboard refresh, fetch succeeded
      apply StateInv_fetch_plain _ _ (hEnv _ _).1 (hEnv _ _).2
      refine ⟨fun h0 => ?_, fun h0 => ?_⟩ <;> dsimp only at h0 ⊢
      · exact ⟨rfl, (htz h0).1⟩
      · exact hti h0
    · -- dashboard refresh, fetch failed
      apply StateInv_fetch_plain _ _ (hEnv _ _).1 (hEnv _ _).2
      refine ⟨fun h0 => ?_, fun h0 => ?_⟩ <;> dsimp only at h0 ⊢
      · exact ⟨rfl, (htz h0).1⟩
      · exact hti h0
    · -- no refresh needed
      have hmode : Mode.dashboard = s.currentMode := by
        by_contra hne
        exact g1 (Or.inr (Or.inl hne))
      refine ⟨fun h0 => ?_, fun h0 => ?_⟩ <;> dsimp only at h0 ⊢
      · exact ⟨hmode.symm, (htz h0).1⟩
      · exact hti h0

/-- A poll exchange carrying an index out of range for its total: index 2
with total 0. -/
def pollBadIndex : PollHttp := ⟨200, some ⟨false, "dashboard", 0, 30, 2, 0⟩⟩

/-- C4 (counterexample).  Poll reconciliation adopts the index and total of
the response without clamping: from a state satisfying the DeviceState
invariant, the response `{r:false, m:"dashboard", v:0, n:30, i:2, t:0}`
leaves the device with `currentImageIndex = 2` and `totalImages = 0`,
violating the invariant. -/
theorem poll_unclamped_index_breaks_invariant :
    StateInv emptyState ∧
    ¬ StateInv (pollServerForInstructions pollBadIndex env500 emptyState).2.1 := by
  decide

/-- C4 (amended).  The DeviceState invariant is preserved by poll
reconciliation, manual toggle, and `advanceImage`, provided the inputs the
firmware does not validate are themselves well behaved: poll payloads are
wire-valid (`WellFormedPoll`), bitmap responses do not override
`totalImages` (no `X-Image-Total` header, no 404), and the server does not
serve a photo when the device knows of no content.  Without these
hypotheses the firmware can break the invariant, as the counterexample
shows. -/
theorem stateInv_preserved_under_validated_inputs (ph : PollHttp)
    (env : String → Int → HttpResponse) (s : DeviceState)
    (hEnv : PlainEnv env) (hInv : StateInv s)
    (hWF : ∀ r, ph.payload = some r → WellFormedPoll r)
    (hNP : NoPhantomPhotos env s) :
    StateInv (pollServerForInstructions ph env s).2.1 ∧
    StateInv (toggleMode env s).1 ∧
    StateInv (advanceImage env s).1 :=
  ⟨poll_preserves_StateInv ph env s hEnv hInv hWF,
   toggle_preserves_StateInv env s hEnv hInv hNP,
   advance_preserves_StateInv env s hEnv hInv⟩

theorem stateInv_preserved_under_validated_inputs_witness :
    StateInv (pollServerForInstructions pollNoop env500 emptyState).2.1 ∧
    StateInv (toggleMode env500 emptyState).1 ∧
    StateInv (advanceImage env500 emptyState).1 :=
  stateInv_preserved_under_validated_inputs pollNoop env500 emptyState
    (by intro m i; exact ⟨rfl, by simp [env500, resp500]⟩) (by decide)
    (by intro r h; simp [pollNoop] at h; rw [← h]; exact ⟨by decide, by decide, by decide⟩)
    (by intro h; decide)

theorem usub32_of_le (a b : Nat) (h1 : b ≤ a) (h2 : a < 2 ^ 32) :
    usub32 a b = a - b := by
  unfold usub32
  omega

theorem pollIntervalMs_of_small (n : Int) (h0 : 0 ≤ n) (h1 : n * 1000 < 2 ^ 32) :
    pollIntervalMs n = (n * 1000).toNat := by
  unfold pollIntervalMs
  have hlt : n < 2 ^ 32 := by omega
  rw [Int.emod_eq_of_lt h0 hlt]
  omega

/-- `loop()` issues a poll exactly when WiFi is connected and the due test
passes against the (possibly button-reset) `lastPollTime`. -/
theorem loopStep_polls_iff (inp : LoopInput) (ph : PollHttp)
    (env : String → Int → HttpResponse) (s : DeviceState) :
    (loopStep inp ph env s).2.1 = true ↔
      (inp.wifiConnected = true ∧
       pollDue inp.now (if inp.buttonEdge = true then 0 else s.lastPollTime)
         s.nextPollSeconds = true) := by
  rcases hb : inp.buttonEdge <;>
    rcases hw : inp.wifiConnected <;>
      simp only [loopStep, hb, hw, if_true, if_false, Bool.false_eq_true,
        reduceIte, toggleMode_nextPollSeconds] <;>
      (try split_ifs) <;> simp_all

/-- C8 (counterexample).  An iteration at `millis() = 5000` with the button
pressed, WiFi connected and a 30 second poll interval: the toggle resets the
scheduler deadline (`lastPollTime` becomes 0), yet the due condition
`millis() - lastPollTime > 30000` is false on the next check, so no poll is
issued — resetting `lastPollTime` to 0 does not force an immediate poll
while uptime is below one poll interval. -/
theorem toggle_reset_does_not_force_poll :
    (⟨true, true, 5000, 5000⟩ : LoopInput).buttonEdge = true ∧
    (⟨true, true, 5000, 5000⟩ : LoopInput).wifiConnected = true ∧
    (loopStep ⟨true, true, 5000, 5000⟩ pollBadPayload env500
        { emptyState with lastPollTime := 4000 }).1.lastPollTime = 0 ∧
    (loopStep ⟨true, true, 5000, 5000⟩ pollBadPayload env500
        { emptyState with lastPollTime := 4000 }).2.1 = false := by
  decide

/-- C8 (amended).  With WiFi connected and non-wrapping clock values, an
iteration without a button press polls exactly when
`now - lastPollTime > nextPollSeconds * 1000`; an iteration with a button
press first resets `lastPollTime` to 0 and therefore polls exactly when
`now > nextPollSeconds * 1000`, that is, the reset forces an immediate poll
only once uptime exceeds one poll interval, not unconditionally. -/
theorem loop_poll_schedule (inp : LoopInput) (ph : PollHttp)
    (env : String → Int → HttpResponse) (s : DeviceState)
    (hw : inp.wifiConnected = true)
    (hnow : inp.now < 2 ^ 32)
    (hlast : s.lastPollTime ≤ inp.now)
    (hn0 : 0 ≤ s.nextPollSeconds)
    (hn1 : s.nextPollSeconds * 1000 < 2 ^ 32) :
    (inp.buttonEdge = false →
      ((loopStep inp ph env s).2.1 = true ↔
        inp.now - s.lastPollTime > (s.nextPollSeconds * 1000).toNat)) ∧
    (inp.buttonEdge = true →
      ((loopStep inp ph env s).2.1 = true ↔
        inp.now > (s.nextPollSeconds * 1000).toNat)) := by
  constructor <;> intro hb <;>
    rw [loopStep_polls_iff] <;>
    simp only [hb, if_true, if_false, Bool.false_eq_true, reduceIte] <;>
    unfold pollDue <;>
    rw [pollIntervalMs_of_small _ hn0 hn1]
  · rw [usub32_of_le _ _ hlast hnow]
    simp [hw]
  · rw [usub32_of_le _ _ (Nat.zero_le _) hnow]
    simp [hw]

theorem loop_poll_schedule_witness :
    ((⟨false, true, 100000, 100000⟩ : LoopInput).buttonEdge = false →
      ((loopStep ⟨false, true, 100000, 100000⟩ pollBadPayload env500 emptyState).2.1 = true ↔
        (⟨false, true, 100000, 100000⟩ : LoopInput).now - emptyState.lastPollTime >
          (emptyState.nextPollSeconds * 1000).toNat)) ∧
    ((⟨false, true, 100000, 100000⟩ : LoopInput).buttonEdge = true →
      ((loopStep ⟨false, true, 100000, 100000⟩ pollBadPayload env500 emptyState).2.1 = true ↔
        (⟨false, true, 100000, 100000⟩ : LoopInput).now >
          (emptyState.nextPollSeconds * 1000).toNat)) :=
  loop_poll_schedule ⟨false, true, 100000, 100000⟩ pollBadPayload env500 emptyState
    rfl (by norm_num) (by norm_num [emptyState]) (by norm_num [emptyState])
    (by norm_num [emptyState])

theorem writeAt_length (buf : List Nat) (off : Nat) (bytes : List Nat)
    (h : off + bytes.length ≤ buf.length) :
    (writeAt buf off bytes).length = buf.length := by
  simp only [writeAt, List.length_append, List.length_take, List.length_drop]
  omega

/-- The read loop never accumulates more than `expectedSize` bytes and, when
started with a full-capacity buffer and an in-range offset, always returns a
buffer of unchanged capacity: every write it performs fits inside the
buffer. -/
theorem streamLoop_bound (evs : List StreamEvent) :
    ∀ n buf, n ≤ expectedSize → buf.length = expectedSize →
      (streamLoop evs n buf).1 ≤ expectedSize ∧
      (streamLoop evs n buf).2.length = expectedSize := by
  induction evs with
  | nil => intro n buf hn hbuf; exact ⟨hn, hbuf⟩
  | cons e rest ih =>
    intro n buf hn hbuf
    simp only [streamLoop]
    split_ifs with h1 h2
    · apply ih
      · have := Nat.min_le_right e.data.length (expectedSize - n)
        omega
      · rw [writeAt_length]
        · exact hbuf
        · rw [List.length_take]
          have := Nat.min_le_right e.data.length (expectedSize - n)
          omega
    · exact ih n buf hn hbuf
    · exact ⟨hn, hbuf⟩

/-- C10.  Every write of the streaming loop stays inside the 5000 byte
image buffer: `bytesRead` never exceeds `expectedSize`, the buffer keeps its
exact capacity through the whole loop, and consequently `fetchBitmap` never
grows or shrinks the image buffer. -/
theorem stream_writes_stay_in_bounds (evs : List StreamEvent) (buf : List Nat)
    (r : HttpResponse) (s : DeviceState)
    (hbuf : buf.length = expectedSize)
    (hs : s.imageBuffer.length = expectedSize) :
    (streamLoop evs 0 buf).1 ≤ expectedSize ∧
    (streamLoop evs 0 buf).2.length = expectedSize ∧
    (fetchBitmap r s).2.imageBuffer.length = expectedSize := by
  obtain ⟨hb1, hb2⟩ := streamLoop_bound evs 0 buf (Nat.zero_le _) hbuf
  refine ⟨hb1, hb2, ?_⟩
  have hsb := (streamLoop_bound r.events 0 s.imageBuffer (Nat.zero_le _) hs).2
  rcases hh : r.xImageTotal with _ | t <;>
    simp only [fetchBitmap, applyHeaderTotal, hh] <;>
    split_ifs <;> simp_all

theorem stream_writes_stay_in_bounds_witness :
    (streamLoop [⟨true, 0, [7]⟩, ⟨false, 1, []⟩] 0
        (List.replicate expectedSize 0)).1 ≤ expectedSize ∧
    (streamLoop [⟨true, 0, [7]⟩, ⟨false, 1, []⟩] 0
        (List.replicate expectedSize 0)).2.length = expectedSize ∧
    (fetchBitmap resp500 bufState).2.imageBuffer.length = expectedSize :=
  stream_writes_stay_in_bounds [⟨true, 0, [7]⟩, ⟨false, 1, []⟩]
    (List.replicate expectedSize 0) resp500 bufState
    (List.length_replicate _ _) (List.length_replicate _ _)
